import Mathlib

/-!
Shallow embedding of the AI-Career-Coach quiz client
(`src/unnamed/part_000`, compiled form `src/FrontEnd/dist/script.js`).

The client is a browser script: a mutable session record
(`assessmentState`), a set of DOM regions it shows/hides and populates,
and four user-triggered handlers (`startAssessment`, `fetchAnswer`,
`handleAnswer`, the retry-button listener) that issue HTTP requests and
fold the responses back into the view via `updateUI`.

The embedding models the DOM regions the script touches as a record of
visibility flags and text/list contents, network outcomes as `Option`
values (`none` = the `fetch`/`json` chain threw), and each handler as a
pure function from the pre-state and the outcome to the post-state plus
the list of requests issued and the alerts raised.
-/

namespace CareerCoach

/-- `interface UserAnswer` (part_000 lines 2-5). -/
structure UserAnswer where
  question : String
  correct : Bool
deriving DecidableEq, Repr

/-- `interface AssessmentState` (part_000 lines 7-13). -/
structure AssessmentState where
  career : String
  previous_answers : List UserAnswer
  total_questions : Nat
  is_retry : Bool
deriving DecidableEq, Repr

/-- One entry of the `resources` array (part_000 line 18). -/
structure Resource where
  type : String
  title : String
  link : Option String
deriving DecidableEq, Repr

/-- `interface ApiResponse` (part_000 lines 15-21). `message` is declared
`string` but the handlers guard it with `|| ''`, so it is modelled optional
like the fields the dispatch actually tests. -/
structure ApiResponse where
  message : Option String
  next_question : Option String
  resources : Option (List Resource)
  final_step : Bool
  answer : Option String
deriving DecidableEq, Repr

/-- The DOM regions the script reads or writes: a `…Hidden` flag per
region the script toggles the `hidden` class on, and the text/list
contents it assigns. Rendered `<li>` lists are abstracted to the list of
`Resource` values rendered, in order (markup details are out of scope). -/
structure UIState where
  startScreenHidden : Bool
  questionScreenHidden : Bool
  resultsScreenHidden : Bool
  loadingHidden : Bool
  revealHidden : Bool
  retryHidden : Bool
  answerBoxHidden : Bool
  aiMessage : String
  aiQuestion : String
  aiAnswer : String
  jobList : List Resource
  resourcesBox : List Resource
deriving DecidableEq, Repr

/-- The whole mutable state of the script: the session record plus the view. -/
structure ClientState where
  session : AssessmentState
  ui : UIState
deriving DecidableEq, Repr

/-- JS truthiness of an optional string field (`undefined` and `""` are falsy),
as tested by `data.next_question` in `updateUI`. -/
def truthyStr : Option String → Bool
  | some s => s != ""
  | none => false

/-- `x || ''` on an optional string field (`data.message || ''`). -/
def strOrEmpty : Option String → String
  | some s => s
  | none => ""

/-- `data.resources && data.resources.length > 0` (part_000 line 140). -/
def hasResources : Option (List Resource) → Bool
  | some rs => decide (0 < rs.length)
  | none => false

/-- Shallow embedding of `updateUI` (part_000 lines 126-170): terminal branch
on `final_step`, else remediation when a non-empty `resources` list is present,
else next-question when `next_question` is truthy, else nothing. -/
def updateUI (s : ClientState) (data : ApiResponse) : ClientState :=
  if data.final_step then
    { s with ui := { s.ui with
        questionScreenHidden := true
        resultsScreenHidden := false
        jobList := data.resources.getD [] } }
  else if hasResources data.resources then
    { s with ui := { s.ui with
        aiMessage := strOrEmpty data.message
        aiQuestion := "Please review the resources below, then click 'Retry Question' to continue."
        revealHidden := true
        answerBoxHidden := true
        retryHidden := false
        resourcesBox := data.resources.getD [] } }
  else if truthyStr data.next_question then
    { s with ui := { s.ui with
        aiMessage := strOrEmpty data.message
        aiQuestion := strOrEmpty data.next_question
        answerBoxHidden := true
        revealHidden := false
        retryHidden := true
        resourcesBox := [] } }
  else
    s

/-- A request the client issues: `POST /career-assessment` with the serialized
session, or `POST /reveal-answer` with the displayed question. -/
inductive Request where
  | progress (body : AssessmentState)
  | revealAnswer (question : String)
deriving DecidableEq, Repr

/-- The `is_retry` field carried by a request (`false` for reveal-answer,
which carries no session state). -/
def Request.isRetryFlag : Request → Bool
  | .progress body => body.is_retry
  | .revealAnswer _ => false

/-- The state at `callApi`'s suspension point: the loading indicator has been
shown and the progress request is in flight (part_000 lines 86-93). -/
def callApiInFlight (s : ClientState) : ClientState :=
  { s with ui := { s.ui with loadingHidden := false } }

/-- Embedding of a full run of `callApi` (part_000 lines 85-101): show the
loading indicator, await the response (`outcome = some data` when fetch and
json succeed, `none` when they throw — the catch block only logs), run
`updateUI` on success, and hide the loading indicator in `finally`. -/
def callApi (s : ClientState) (outcome : Option ApiResponse) : ClientState :=
  let s0 := callApiInFlight s
  let s1 := match outcome with
    | some data => updateUI s0 data
    | none => s0
  { s1 with ui := { s1.ui with loadingHidden := true } }

/-- The request body `callApi` sends: `JSON.stringify(assessmentState)`. -/
def callApiRequest (s : ClientState) : Request :=
  Request.progress s.session

/-- The result of running one event handler to completion: the final state,
the requests it issued, and the `alert` messages it raised. -/
structure HandlerResult where
  state : ClientState
  requests : List Request
  alerts : List String
deriving DecidableEq, Repr

/-- Embedding of `startAssessment` (part_000 lines 62-71): copy the input into
`assessmentState.career`, abort with an alert when it is falsy (the empty
string — JS truthiness, no trimming), otherwise swap start screen for question
screen and call `callApi`. -/
def startAssessment (s : ClientState) (inputValue : String)
    (outcome : Option ApiResponse) : HandlerResult :=
  let s := { s with session := { s.session with career := inputValue } }
  if s.session.career = "" then
    { state := s, requests := [], alerts := ["Please enter a career."] }
  else
    let s := { s with ui := { s.ui with
        startScreenHidden := true
        questionScreenHidden := false } }
    { state := callApi s outcome, requests := [callApiRequest s], alerts := [] }

/-- Embedding of `handleAnswer` (part_000 lines 73-82): append a record pairing
the displayed question (`aiQuestionEl.textContent || ""`) with the self-report,
reset the retry flag, and call `callApi`. -/
def handleAnswer (s : ClientState) (isCorrect : Bool)
    (outcome : Option ApiResponse) : HandlerResult :=
  let lastQuestion := s.ui.aiQuestion
  let s := { s with session := { s.session with
      previous_answers := s.session.previous_answers
        ++ [{ question := lastQuestion, correct := isCorrect }]
      is_retry := false } }
  { state := callApi s outcome, requests := [callApiRequest s], alerts := [] }

/-- The synchronous part of `startAssessment` on a non-empty input, up to
`callApi`'s suspension point: career copied in, start screen hidden, question
screen shown, loading indicator shown; the progress request is in flight. -/
def startIssued (s : ClientState) (inputValue : String) : ClientState :=
  callApiInFlight
    { s with
        session := { s.session with career := inputValue }
        ui := { s.ui with
          startScreenHidden := true
          questionScreenHidden := false } }

/-- The synchronous part of the retry-button listener (part_000 lines 57-60) up
to `callApi`'s suspension point: set `is_retry := true`, show the loading
indicator; the request is now in flight, no response processed yet. -/
def retryIssued (s : ClientState) : ClientState :=
  callApiInFlight { s with session := { s.session with is_retry := true } }

/-- Embedding of a full run of the retry-button listener (part_000 lines
57-60): set `is_retry := true` and call `callApi`. -/
def retryClick (s : ClientState) (outcome : Option ApiResponse) : HandlerResult :=
  let s := { s with session := { s.session with is_retry := true } }
  { state := callApi s outcome, requests := [callApiRequest s], alerts := [] }

/-- The state at `fetchAnswer`'s suspension point: loading indicator shown,
reveal-answer request in flight (part_000 lines 104-112). -/
def fetchAnswerInFlight (s : ClientState) : ClientState :=
  { s with ui := { s.ui with loadingHidden := false } }

/-- Embedding of a full run of `fetchAnswer` (part_000 lines 103-124): show the
loading indicator, send the displayed question, on success display the returned
answer and reveal the answer box, on failure display the fixed error string and
still reveal the box, and hide the loading indicator in `finally`. -/
def fetchAnswer (s : ClientState) (outcome : Option String) : HandlerResult :=
  let s0 := fetchAnswerInFlight s
  let question := s0.ui.aiQuestion
  let s1 := match outcome with
    | some ans => { s0 with ui := { s0.ui with
        aiAnswer := ans
        answerBoxHidden := false } }
    | none => { s0 with ui := { s0.ui with
        aiAnswer := "Error fetching answer."
        answerBoxHidden := false } }
  { state := { s1 with ui := { s1.ui with loadingHidden := true } }
    requests := [Request.revealAnswer question]
    alerts := [] }

/-- A user action together with the network outcome its handler observes. -/
inductive Action where
  | start (inputValue : String) (outcome : Option ApiResponse)
  | reveal (outcome : Option String)
  | grade (isCorrect : Bool) (outcome : Option ApiResponse)
  | retry (outcome : Option ApiResponse)
deriving DecidableEq, Repr

/-- Dispatch of a user action to its handler (the listener registrations,
part_000 lines 51-60). -/
def stepAction (s : ClientState) : Action → HandlerResult
  | .start v o => startAssessment s v o
  | .reveal o => fetchAnswer s o
  | .grade b o => handleAnswer s b o
  | .retry o => retryClick s o

/-- Modelled from the spec: the markup (`index.html`) that places each control
on a screen is not under `src/`; per the spec's UI-surface section the start
control belongs to the start view and the reveal/correct/incorrect/retry
controls to the question view, so the user can trigger a control only while
its hosting screen is visible and the control itself is not hidden. -/
def enabled (s : ClientState) : Action → Bool
  | .start _ _ => !s.ui.startScreenHidden
  | .reveal _ => !s.ui.questionScreenHidden && !s.ui.revealHidden
  | .grade _ _ => !s.ui.questionScreenHidden
  | .retry _ => !s.ui.questionScreenHidden && !s.ui.retryHidden

/-- Run a sequence of user actions from a state, skipping actions whose
control is not available, collecting every request issued. -/
def runTrace (s : ClientState) : List Action → ClientState × List Request
  | [] => (s, [])
  | a :: rest =>
    if enabled s a then
      let r := stepAction s a
      let t := runTrace r.state rest
      (t.1, r.requests ++ t.2)
    else
      runTrace s rest

/-- The initial session record (part_000 lines 43-48). -/
def initialAssessmentState : AssessmentState :=
  { career := "", previous_answers := [], total_questions := 3, is_retry := false }

/-- Modelled from the spec: the initial visibility of the view regions is set
by the markup, which is not under `src/`; the spec's Start state shows the
start view only, with the question and results views, the loading indicator,
the answer box and the retry control hidden. -/
def initialUI : UIState :=
  { startScreenHidden := false
    questionScreenHidden := true
    resultsScreenHidden := true
    loadingHidden := true
    revealHidden := false
    retryHidden := true
    answerBoxHidden := true
    aiMessage := ""
    aiQuestion := ""
    aiAnswer := ""
    jobList := []
    resourcesBox := [] }

/-- The state when the page has just loaded. -/
def initialState : ClientState :=
  { session := initialAssessmentState, ui := initialUI }

/-- Iterate `handleAnswer` over a list of (self-report, outcome) pairs. -/
def runGrades (s : ClientState) : List (Bool × Option ApiResponse) → ClientState
  | [] => s
  | (b, o) :: rest => runGrades (handleAnswer s b o).state rest

/-- The records the grades of `runGrades` append: at each call, the question
displayed at that moment paired with that call's self-report. -/
def gradeRecords (s : ClientState) : List (Bool × Option ApiResponse) → List UserAnswer
  | [] => []
  | (b, o) :: rest =>
    { question := s.ui.aiQuestion, correct := b }
      :: gradeRecords (handleAnswer s b o).state rest

/-- A concrete resource used to instantiate theorems. -/
def sampleResource : Resource :=
  { type := "course", title := "Intro to Nursing", link := some "https://example.org/r1" }

/-- A second concrete resource used to instantiate theorems. -/
def sampleResource2 : Resource :=
  { type := "job", title := "Junior Nurse", link := some "https://example.org/r2" }

/-! ### Helper lemmas -/

/-- `updateUI` only touches the view: the session record passes through. -/
theorem updateUI_session (s : ClientState) (data : ApiResponse) :
    (updateUI s data).session = s.session := by
  unfold updateUI
  split
  · rfl
  · split
    · rfl
    · split <;> rfl

/-- A full `callApi` run leaves the session record unchanged. -/
theorem callApi_session (s : ClientState) (o : Option ApiResponse) :
    (callApi s o).session = s.session := by
  cases o <;> simp [callApi, callApiInFlight, updateUI_session]

/-- The session record after a `handleAnswer` run: one record appended,
retry flag cleared, career and total unchanged. -/
theorem handleAnswer_session (s : ClientState) (b : Bool) (o : Option ApiResponse) :
    (handleAnswer s b o).state.session
      = { career := s.session.career
          previous_answers := s.session.previous_answers
            ++ [{ question := s.ui.aiQuestion, correct := b }]
          total_questions := s.session.total_questions
          is_retry := false } := by
  simp [handleAnswer, callApi_session]

/-- `updateUI` never reveals the start screen. -/
theorem updateUI_startScreenHidden (s : ClientState) (data : ApiResponse)
    (h : s.ui.startScreenHidden = true) :
    (updateUI s data).ui.startScreenHidden = true := by
  unfold updateUI
  split
  · exact h
  · split
    · exact h
    · split
      · exact h
      · exact h

/-- The history after a run of grades is the old history with the grade
records appended, in call order. -/
theorem runGrades_previous_answers (gs : List (Bool × Option ApiResponse))
    (s : ClientState) :
    (runGrades s gs).session.previous_answers
      = s.session.previous_answers ++ gradeRecords s gs := by
  induction gs generalizing s with
  | nil => simp [runGrades, gradeRecords]
  | cons g rest ih =>
    obtain ⟨b, o⟩ := g
    rw [runGrades, gradeRecords, ih, handleAnswer_session]
    simp

/-- One grade record per grade call. -/
theorem gradeRecords_length (gs : List (Bool × Option ApiResponse))
    (s : ClientState) :
    (gradeRecords s gs).length = gs.length := by
  induction gs generalizing s with
  | nil => rfl
  | cons g rest ih =>
    obtain ⟨b, o⟩ := g
    rw [gradeRecords]
    simp [ih]

/-- Each grade record carries that call's self-report. -/
theorem gradeRecords_correct (gs : List (Bool × Option ApiResponse))
    (s : ClientState) :
    (gradeRecords s gs).map UserAnswer.correct = gs.map Prod.fst := by
  induction gs generalizing s with
  | nil => rfl
  | cons g rest ih =>
    obtain ⟨b, o⟩ := g
    rw [gradeRecords]
    simp [ih]

/-- After any non-empty run of grades the retry flag is clear. -/
theorem runGrades_is_retry (gs : List (Bool × Option ApiResponse))
    (s : ClientState) (h : gs ≠ []) :
    (runGrades s gs).session.is_retry = false := by
  induction gs generalizing s with
  | nil => exact absurd rfl h
  | cons g rest ih =>
    obtain ⟨b, o⟩ := g
    rw [runGrades]
    rcases eq_or_ne rest [] with hr | hr
    · subst hr
      rw [runGrades, handleAnswer_session]
    · exact ih _ hr

/-- With the start and question screens both hidden no action is enabled, so
a trace from such a state issues no request and changes nothing. -/
theorem runTrace_results_terminal (s : ClientState)
    (h1 : s.ui.startScreenHidden = true) (h2 : s.ui.questionScreenHidden = true) :
    ∀ tr : List Action, runTrace s tr = (s, []) := by
  intro tr
  induction tr with
  | nil => rfl
  | cons a rest ih =>
    have ha : enabled s a = false := by
      cases a <;> simp [enabled, h1, h2]
    rw [runTrace, ha]
    simpa using ih

/-! ### Claim theorems -/

/-- C1: for every progress response with `final_step = false` and a non-empty
`resources` list, `updateUI` takes the remediation branch regardless of
whether `next_question` is also present: the retry control is shown and the
reveal control is hidden (the resource-list check is evaluated before the
next-question check). -/
theorem C1_remediation_precedence (s : ClientState) (data : ApiResponse)
    (rs : List Resource) (hfinal : data.final_step = false)
    (hres : data.resources = some rs) (hne : rs ≠ []) :
    (updateUI s data).ui.retryHidden = false
    ∧ (updateUI s data).ui.revealHidden = true := by
  have hlen : 0 < rs.length := List.length_pos.mpr hne
  rw [updateUI, hfinal]
  simp only [Bool.false_eq_true, if_false]
  rw [hres]
  simp [hasResources, hlen]

/-- C1 witness: a concrete remediation response that also carries a
`next_question` string still shows retry and hides reveal. -/
theorem C1_remediation_precedence_witness :
    (updateUI initialState
      { message := some "Not quite."
        next_question := some "What is triage?"
        resources := some [sampleResource]
        final_step := false
        answer := none }).ui.retryHidden = false
    ∧ (updateUI initialState
      { message := some "Not quite."
        next_question := some "What is triage?"
        resources := some [sampleResource]
        final_step := false
        answer := none }).ui.revealHidden = true :=
  C1_remediation_precedence initialState _ [sampleResource] rfl rfl (by decide)

/-- C2: a sequence of `n` Grade calls appends exactly `n` records, in call
order, each pairing the question displayed at that call with that call's
self-report; earlier history is preserved unchanged, and `is_retry` is false
immediately after every Grade call (i.e. after every non-empty prefix of the
sequence). -/
theorem C2_grade_history (s : ClientState) (gs : List (Bool × Option ApiResponse)) :
    (runGrades s gs).session.previous_answers
        = s.session.previous_answers ++ gradeRecords s gs
    ∧ (gradeRecords s gs).length = gs.length
    ∧ (gradeRecords s gs).map UserAnswer.correct = gs.map Prod.fst
    ∧ ∀ i, i < gs.length →
        (runGrades s (gs.take (i + 1))).session.is_retry = false := by
  refine ⟨runGrades_previous_answers gs s, gradeRecords_length gs s,
    gradeRecords_correct gs s, ?_⟩
  intro i hi
  apply runGrades_is_retry
  have : (gs.take (i + 1)).length = i + 1 := by
    rw [List.length_take]
    omega
  intro hnil
  rw [hnil] at this
  simp at this

/-- C2 witness: two concrete grades (one with a failed request) from the
initial state. -/
theorem C2_grade_history_witness :
    (runGrades initialState [(true, none), (false, none)]).session.previous_answers
        = initialState.session.previous_answers
            ++ gradeRecords initialState [(true, none), (false, none)]
    ∧ (runGrades initialState
        ([(true, none), (false, none)].take 1)).session.is_retry = false :=
  ⟨(C2_grade_history initialState [(true, none), (false, none)]).1,
   (C2_grade_history initialState [(true, none), (false, none)]).2.2.2 0 (by decide)⟩

/-- C3: the Retry operation never changes the history or the displayed
question (checked at its suspension point, before any response is processed,
and for the history also after the full run), and it sets `is_retry = true`
for exactly the next progress request: the request Retry issues carries
`is_retry = true`, while any subsequent Grade call's request carries
`is_retry = false` and leaves the flag false. -/
theorem C3_retry_oneshot (s : ClientState) (o o' : Option ApiResponse) (b : Bool) :
    (retryIssued s).session.previous_answers = s.session.previous_answers
    ∧ (retryIssued s).ui.aiQuestion = s.ui.aiQuestion
    ∧ (retryClick s o).state.session.previous_answers = s.session.previous_answers
    ∧ (retryClick s o).requests.map Request.isRetryFlag = [true]
    ∧ (handleAnswer (retryClick s o).state b o').requests.map Request.isRetryFlag
        = [false]
    ∧ (handleAnswer (retryClick s o).state b o').state.session.is_retry = false := by
  refine ⟨rfl, rfl, ?_, rfl, rfl, ?_⟩
  · rw [retryClick]
    simp [callApi_session]
  · rw [handleAnswer_session]

/-- C4 counterexample: for the whitespace-only career input `" "` (truthy in
JS, since `startAssessment` tests `!assessmentState.career` without trimming),
Begin does NOT issue zero requests and does NOT stay on the start view: it
issues one progress request and hides the start screen. -/
theorem C4_whitespace_counterexample :
    (startAssessment initialState " " none).requests.length = 1
    ∧ (startAssessment initialState " " none).state.ui.startScreenHidden = true
    ∧ (startAssessment initialState " " none).alerts = [] := by
  decide

/-- C4 (amended): for the empty career input, Begin issues zero network
requests, leaves the whole view unchanged in the Start state, and raises the
alert synchronously; for every non-empty career input — whitespace-only
included — it hides the start view, shows the question view, and issues one
progress request carrying the entered career. -/
theorem C4_begin_validation (s : ClientState) (o : Option ApiResponse)
    (v : String) :
    (v = "" →
      (startAssessment s v o).requests = []
      ∧ (startAssessment s v o).state.ui = s.ui
      ∧ (startAssessment s v o).alerts = ["Please enter a career."])
    ∧ (v ≠ "" →
      (startIssued s v).ui.startScreenHidden = true
      ∧ (startIssued s v).ui.questionScreenHidden = false
      ∧ (startAssessment s v o).state.ui.startScreenHidden = true
      ∧ (startAssessment s v o).requests
          = [Request.progress { s.session with career := v }]
      ∧ (startAssessment s v o).alerts = []) := by
  constructor
  · intro hv
    subst hv
    exact ⟨rfl, rfl, rfl⟩
  · intro hv
    refine ⟨rfl, rfl, ?_, ?_, ?_⟩
    · rw [startAssessment]
      split
      · next h => exact absurd h hv
      · cases o <;> simp [callApi, callApiInFlight, updateUI_startScreenHidden]
    · rw [startAssessment]
      split
      · next h => exact absurd h hv
      · rfl
    · rw [startAssessment]
      split
      · next h => exact absurd h hv
      · rfl

/-- C4 witness: the empty input aborts with no request; the input "nurse"
proceeds to the question view. -/
theorem C4_begin_validation_witness :
    (startAssessment initialState "" none).requests = []
    ∧ (startIssued initialState "nurse").ui.questionScreenHidden = false :=
  ⟨((C4_begin_validation initialState none "").1 rfl).1,
   ((C4_begin_validation initialState none "nurse").2 (by decide)).2.1⟩

/-- C5: a progress response with `final_step = true` carrying two resources
switches to the results view (question screen hidden, results screen shown),
renders exactly those two result links (the list is rebuilt from scratch, so
nothing else is in it), and from the resulting state — the start screen
already hidden, as it is from Begin on — no trace of user actions ever issues
another request. -/
theorem C5_terminal_results (s : ClientState) (data : ApiResponse)
    (r1 r2 : Resource) (hfinal : data.final_step = true)
    (hres : data.resources = some [r1, r2])
    (hstart : s.ui.startScreenHidden = true) :
    (callApi s (some data)).ui.resultsScreenHidden = false
    ∧ (callApi s (some data)).ui.questionScreenHidden = true
    ∧ (callApi s (some data)).ui.jobList = [r1, r2]
    ∧ ∀ tr : List Action, (runTrace (callApi s (some data)) tr).2 = [] := by
  have hs : (callApi s (some data)).ui.startScreenHidden = true := by
    simp [callApi, callApiInFlight, updateUI, hfinal, hstart]
  have hq : (callApi s (some data)).ui.questionScreenHidden = true := by
    simp [callApi, callApiInFlight, updateUI, hfinal]
  refine ⟨?_, hq, ?_, ?_⟩
  · simp [callApi, callApiInFlight, updateUI, hfinal]
  · simp [callApi, callApiInFlight, updateUI, hfinal, hres]
  · intro tr
    rw [runTrace_results_terminal _ hs hq tr]

/-- C5 witness: a concrete terminal response with two resources, received in a
state with the start screen hidden; a grade attempt afterwards issues nothing. -/
theorem C5_terminal_results_witness :
    (callApi { initialState with
        ui := { initialUI with startScreenHidden := true } }
      (some { message := some "Done!"
              next_question := none
              resources := some [sampleResource, sampleResource2]
              final_step := true
              answer := none })).ui.jobList = [sampleResource, sampleResource2]
    ∧ (runTrace (callApi { initialState with
        ui := { initialUI with startScreenHidden := true } }
      (some { message := some "Done!"
              next_question := none
              resources := some [sampleResource, sampleResource2]
              final_step := true
              answer := none })) [Action.grade true none]).2 = [] :=
  ⟨(C5_terminal_results _ _ sampleResource sampleResource2 rfl rfl rfl).2.2.1,
   (C5_terminal_results _ _ sampleResource sampleResource2 rfl rfl rfl).2.2.2
     [Action.grade true none]⟩

/-- C6: a progress response matching none of the three shapes — `final_step`
false, `resources` absent or empty, `next_question` absent or empty — leaves
the entire client state unchanged: a silent no-op, not an error. -/
theorem C6_unrecognized_noop (s : ClientState) (data : ApiResponse)
    (hfinal : data.final_step = false)
    (hres : data.resources = none ∨ data.resources = some [])
    (hq : data.next_question = none ∨ data.next_question = some "") :
    updateUI s data = s := by
  rw [updateUI, hfinal]
  simp only [Bool.false_eq_true, if_false]
  rcases hres with h | h <;> rcases hq with h' | h' <;>
    simp [hasResources, truthyStr, h, h']

/-- C6 witness: the all-absent response is a no-op on the initial state. -/
theorem C6_unrecognized_noop_witness :
    updateUI initialState
      { message := none
        next_question := none
        resources := none
        final_step := false
        answer := none } = initialState :=
  C6_unrecognized_noop initialState _ rfl (Or.inl rfl) (Or.inl rfl)

/-- C7: for both request kinds, the loading indicator is visible at the
suspension point (request in flight) and hidden again on every exit path of
the handler — response processed or fetch failed alike. -/
theorem C7_loading_indicator (s : ClientState) (o : Option ApiResponse)
    (o' : Option String) :
    (callApiInFlight s).ui.loadingHidden = false
    ∧ (callApi s o).ui.loadingHidden = true
    ∧ (fetchAnswerInFlight s).ui.loadingHidden = false
    ∧ (fetchAnswer s o').state.ui.loadingHidden = true := by
  exact ⟨rfl, rfl, rfl, rfl⟩

/-- C8: a failing answer-reveal request sets the answer text to the literal
string "Error fetching answer." and reveals the answer panel, exactly as a
successful one reveals it; no alert is raised and the handler returns
normally (the failure is not propagated). -/
theorem C8_reveal_failure (s : ClientState) (ans : String) :
    (fetchAnswer s none).state.ui.aiAnswer = "Error fetching answer."
    ∧ (fetchAnswer s none).state.ui.answerBoxHidden = false
    ∧ (fetchAnswer s (some ans)).state.ui.answerBoxHidden = false
    ∧ (fetchAnswer s none).alerts = []
    ∧ (fetchAnswer s none).requests = [Request.revealAnswer s.ui.aiQuestion] :=
  ⟨rfl, rfl, rfl, rfl, rfl⟩

/-- `stepAction` never changes `total_questions`. -/
theorem stepAction_total_questions (s : ClientState) (a : Action) :
    (stepAction s a).state.session.total_questions
      = s.session.total_questions := by
  cases a with
  | start v o =>
    show (startAssessment s v o).state.session.total_questions = _
    rw [startAssessment]
    split
    · rfl
    · simp [callApi_session]
  | reveal o =>
    show (fetchAnswer s o).state.session.total_questions = _
    cases o <;> rfl
  | grade b o =>
    show (handleAnswer s b o).state.session.total_questions = _
    rw [handleAnswer_session]
  | retry o =>
    show (retryClick s o).state.session.total_questions = _
    rw [retryClick]
    simp [callApi_session]

/-- No trace of user actions changes `total_questions`. -/
theorem runTrace_total_questions (tr : List Action) (s : ClientState) :
    (runTrace s tr).1.session.total_questions = s.session.total_questions := by
  induction tr generalizing s with
  | nil => rfl
  | cons a rest ih =>
    rw [runTrace]
    split
    · show (runTrace (stepAction s a).state rest).1.session.total_questions = _
      rw [ih, stepAction_total_questions]
    · exact ih s

/-- C9: processing a progress response (`updateUI`) leaves every field of the
session record unchanged, the answer-reveal handler never touches the session
either (so only Begin, Grade and Retry mutate it), and `total_questions`
equals 3 in every state reachable from page load by user actions. -/
theorem C9_session_frame (s : ClientState) (data : ApiResponse)
    (o' : Option String) :
    (updateUI s data).session = s.session
    ∧ (fetchAnswer s o').state.session = s.session
    ∧ ∀ tr : List Action,
        (runTrace initialState tr).1.session.total_questions = 3 := by
  refine ⟨updateUI_session s data, ?_, ?_⟩
  · cases o' <;> rfl
  · intro tr
    rw [runTrace_total_questions]
    rfl

/-- C10: the record appended by a Grade whose request then fails is not rolled
back, and the failed request leaves the displayed question unchanged; so a
repeated Grade for the same question appends a second record with that same
question — the Grade-plus-request action is not atomic on error. -/
theorem C10_failed_grade_not_rolled_back (s : ClientState) (b b' : Bool)
    (o' : Option ApiResponse) :
    (handleAnswer s b none).state.session.previous_answers
        = s.session.previous_answers
            ++ [{ question := s.ui.aiQuestion, correct := b }]
    ∧ (handleAnswer s b none).state.ui.aiQuestion = s.ui.aiQuestion
    ∧ (handleAnswer (handleAnswer s b none).state b' o').state.session.previous_answers
        = s.session.previous_answers
            ++ [{ question := s.ui.aiQuestion, correct := b },
                { question := s.ui.aiQuestion, correct := b' }] := by
  have hq : (handleAnswer s b none).state.ui.aiQuestion = s.ui.aiQuestion := rfl
  refine ⟨?_, hq, ?_⟩
  · rw [handleAnswer_session]
  · simp [handleAnswer_session, hq]

end CareerCoach
